import Mathlib

/-!
Verification of the amazon_rekognition image-processing component
(`custom_components/amazon_rekognition/image_processing.py`).

Confidences and bounding-box coordinates are modelled as rationals (`ℚ`);
AWS responses are modelled as a list of labels, each with a name, a
confidence, and a list of instances carrying a confidence and a normalized
bounding box.  Python dictionaries are modelled as association lists with
first-occurrence key position and overwrite-on-duplicate, matching Python
insertion semantics.
-/

namespace Rekognition

/-- A normalized bounding box, fields `Left`, `Top`, `Width`, `Height` of the
`BoundingBox` dictionary in a Rekognition response. -/
structure BoundingBox where
  left : ℚ
  top : ℚ
  width : ℚ
  height : ℚ
deriving DecidableEq, Repr

/-- An entry of a label's `Instances` list: a `Confidence` and a `BoundingBox`. -/
structure RInstance where
  confidence : ℚ
  boundingBox : BoundingBox
deriving DecidableEq, Repr

/-- An entry of the response's `Labels` list: `Name`, `Confidence`, `Instances`. -/
structure RLabel where
  name : String
  confidence : ℚ
  instances : List RInstance
deriving DecidableEq, Repr

/-- A `detect_labels` response: the `Labels` list. -/
structure Response where
  labels : List RLabel
deriving DecidableEq, Repr

/-- Python `str.lower()`, modelled character by character (ASCII case
mapping, which covers every string appearing in this component). -/
def pyLower (s : String) : String := String.mk (s.data.map Char.toLower)

/-- The label-name test of `get_object_instances`:
`label["Name"].lower() == target.lower()`. -/
def nameMatches (target : String) (label : RLabel) : Bool :=
  pyLower label.name == pyLower target

/-- `get_object_instances(response, target, confidence_threshold)`
(image_processing.py lines 80-92).  The Python loop returns, at the first
label whose lowercased name equals the lowercased target, the list of that
label's instances whose confidence is strictly greater than the threshold,
and `[]` when no label matches; `List.find?` has exactly the
first-match semantics of that loop. -/
def get_object_instances (response : Response) (target : String)
    (confidence_threshold : ℚ) : List RInstance :=
  match response.labels.find? (nameMatches target) with
  | some label => label.instances.filter (fun l => confidence_threshold < l.confidence)
  | none => []

/-- Python `round(q, 1)`: round to one decimal place.  The model rounds
half up; the tie case is immaterial here (Python's float `round` breaks ties
to even, and this component only compares and displays the result). -/
def pyRound1 (q : ℚ) : ℚ := ((⌊10 * q + 1 / 2⌋ : ℤ) : ℚ) / 10

/-- Insertion into a Python dict modelled as an association list: an existing
key keeps its position and gets the new value, a new key is appended. -/
def dictInsert : List (String × ℚ) → String → ℚ → List (String × ℚ)
  | [], k, v => [(k, v)]
  | p :: d, k, v => if p.1 = k then (k, v) :: d else p :: dictInsert d k v

/-- Lookup in the association-list model of a Python dict. -/
def dictLookup : List (String × ℚ) → String → Option ℚ
  | [], _ => none
  | p :: d, k => if p.1 = k then some p.2 else dictLookup d k

/-- `get_objects(response)` (image_processing.py lines 95-101): the dict
comprehension `{label["Name"].lower(): round(label["Confidence"], 1) for
label in response["Labels"] if len(label["Instances"]) > 0}`, realised as a
left fold of `dictInsert` over the labels. -/
def get_objects (response : Response) : List (String × ℚ) :=
  response.labels.foldl
    (fun d label =>
      if 0 < label.instances.length then
        dictInsert d (pyLower label.name) (pyRound1 label.confidence)
      else d)
    []

/-- The last label of `ls` that has at least one instance and whose lowercased
name is `k` (the label whose value survives the dict comprehension of
`get_objects` under last-wins overwrite). -/
def lastMatch (k : String) : List RLabel → Option RLabel
  | [] => none
  | l :: ls =>
    match lastMatch k ls with
    | some m => some m
    | none =>
      if 0 < l.instances.length ∧ pyLower l.name = k then some l else none

lemma dictLookup_dictInsert_self (d : List (String × ℚ)) (k : String) (v : ℚ) :
    dictLookup (dictInsert d k v) k = some v := by
  induction d with
  | nil => simp [dictInsert, dictLookup]
  | cons p d ih =>
    by_cases h : p.1 = k
    · simp [dictInsert, dictLookup, h]
    · simp [dictInsert, dictLookup, h, ih]

lemma dictLookup_dictInsert_ne (d : List (String × ℚ)) (k k' : String) (v : ℚ)
    (h : k' ≠ k) : dictLookup (dictInsert d k v) k' = dictLookup d k' := by
  have hk : ¬(k = k') := fun hh => h hh.symm
  induction d with
  | nil => simp [dictInsert, dictLookup, hk]
  | cons p d ih =>
    by_cases hp : p.1 = k
    · simp only [dictInsert, if_pos hp, dictLookup, hp, if_neg hk]
    · simp only [dictInsert, if_neg hp, dictLookup, ih]

/-- The step function of the fold inside `get_objects`. -/
def getObjectsStep (d : List (String × ℚ)) (label : RLabel) : List (String × ℚ) :=
  if 0 < label.instances.length then
    dictInsert d (pyLower label.name) (pyRound1 label.confidence)
  else d

lemma get_objects_eq_foldl (r : Response) :
    get_objects r = r.labels.foldl getObjectsStep [] := rfl

lemma dictLookup_foldl (ls : List RLabel) (d : List (String × ℚ)) (k : String) :
    dictLookup (ls.foldl getObjectsStep d) k =
      match lastMatch k ls with
      | some m => some (pyRound1 m.confidence)
      | none => dictLookup d k := by
  induction ls generalizing d with
  | nil => simp [lastMatch]
  | cons l ls ih =>
    rw [List.foldl_cons, ih]
    cases hm : lastMatch k ls with
    | some m =>
      have hcons : lastMatch k (l :: ls) = some m := by
        simp only [lastMatch, hm]
      rw [hcons]
    | none =>
      have hcons : lastMatch k (l :: ls)
          = if 0 < l.instances.length ∧ pyLower l.name = k then some l else none := by
        simp only [lastMatch, hm]
      by_cases hc : 0 < l.instances.length ∧ pyLower l.name = k
      · rw [hcons, if_pos hc]
        show dictLookup (getObjectsStep d l) k = some (pyRound1 l.confidence)
        rw [getObjectsStep, if_pos hc.1, hc.2]
        exact dictLookup_dictInsert_self d k (pyRound1 l.confidence)
      · rw [hcons, if_neg hc]
        show dictLookup (getObjectsStep d l) k = dictLookup d k
        by_cases h1 : 0 < l.instances.length
        · have h2 : k ≠ pyLower l.name := fun hh => hc ⟨h1, hh.symm⟩
          rw [getObjectsStep, if_pos h1]
          exact dictLookup_dictInsert_ne d (pyLower l.name) k (pyRound1 l.confidence) h2
        · rw [getObjectsStep, if_neg h1]

lemma lastMatch_eq_none_iff (k : String) (ls : List RLabel) :
    lastMatch k ls = none ↔
      ∀ l ∈ ls, ¬(0 < l.instances.length ∧ pyLower l.name = k) := by
  induction ls with
  | nil => simp [lastMatch]
  | cons l ls ih =>
    cases hm : lastMatch k ls with
    | some m =>
      simp only [lastMatch, hm]
      constructor
      · intro h; exact absurd h (by simp)
      · intro h
        have := (ih.mpr (fun x hx => h x (List.mem_cons_of_mem l hx)))
        rw [hm] at this; exact absurd this (by simp)
    | none =>
      simp only [lastMatch, hm]
      constructor
      · intro h x hx
        rcases List.mem_cons.mp hx with rfl | hx
        · intro hc; rw [if_pos hc] at h; exact absurd h (by simp)
        · exact (ih.mp hm) x hx
      · intro h
        rw [if_neg (h l (List.mem_cons_self l ls))]

/-- A two-instance label used to instantiate universally quantified theorems:
one instance strictly above a threshold of 80, one exactly at it. -/
def wLabel : RLabel :=
  { name := "Person", confidence := 99
  , instances :=
      [ { confidence := 90, boundingBox := { left := 0, top := 0, width := 1, height := 1 } }
      , { confidence := 80, boundingBox := { left := 0, top := 0, width := 1, height := 1 } } ] }

/-- A concrete response holding only `wLabel`. -/
def wResponse : Response := { labels := [wLabel] }

/-- C1: for every detection response, target name, and threshold, whenever a
label matches the target case-insensitively (the first such label, as the
Python loop returns at the first match), the instance count of
`get_object_instances` is exactly the number of that label's instances with
confidence strictly greater than the threshold; every returned instance has
confidence strictly above the threshold, so an instance whose confidence
equals the threshold is never counted. -/
theorem get_object_instances_spec (r : Response) (t : String) (θ : ℚ) (lab : RLabel)
    (h : r.labels.find? (nameMatches t) = some lab) :
    (get_object_instances r t θ).length
        = (lab.instances.filter (fun i => θ < i.confidence)).length
      ∧ (∀ i ∈ get_object_instances r t θ, θ < i.confidence)
      ∧ ∀ i ∈ lab.instances, i.confidence = θ → i ∉ get_object_instances r t θ := by
  unfold get_object_instances
  rw [h]
  refine ⟨rfl, ?_, ?_⟩
  · intro i hi
    exact of_decide_eq_true (List.mem_filter.mp hi).2
  · intro i _ he hmem
    have hlt : θ < i.confidence := of_decide_eq_true (List.mem_filter.mp hmem).2
    rw [he] at hlt
    exact lt_irrefl θ hlt

/-- Instantiation of `get_object_instances_spec` at `wResponse`, target
`"person"`, threshold `80`: of the two instances (confidences 90 and 80),
exactly one is counted. -/
theorem get_object_instances_spec_witness :
    wResponse.labels.find? (nameMatches "person") = some wLabel
      ∧ ((get_object_instances wResponse "person" 80).length
            = (wLabel.instances.filter (fun i => (80 : ℚ) < i.confidence)).length
          ∧ (∀ i ∈ get_object_instances wResponse "person" 80, (80 : ℚ) < i.confidence)
          ∧ ∀ i ∈ wLabel.instances, i.confidence = 80 →
              i ∉ get_object_instances wResponse "person" 80) :=
  ⟨by decide, get_object_instances_spec wResponse "person" 80 wLabel (by decide)⟩

/-- C2: when no label's name matches the target case-insensitively
(lowercasing both sides), `get_object_instances` returns the empty list, so
the instance count is 0; the function is total, so no error is raised. -/
theorem get_object_instances_absent (r : Response) (t : String) (θ : ℚ)
    (h : ∀ l ∈ r.labels, pyLower l.name ≠ pyLower t) :
    get_object_instances r t θ = [] ∧ (get_object_instances r t θ).length = 0 := by
  have hfind : r.labels.find? (nameMatches t) = none := by
    rw [List.find?_eq_none]
    intro x hx
    simp only [nameMatches, beq_eq_false_iff_ne, ne_eq]
    simp only [beq_iff_eq]
    exact h x hx
  unfold get_object_instances
  rw [hfind]
  exact ⟨rfl, rfl⟩

/-- Instantiation of `get_object_instances_absent`: a response containing only
a `"Dog"` label yields count 0 for target `"person"`. -/
theorem get_object_instances_absent_witness :
    (∀ l ∈ (Response.mk [{ name := "Dog", confidence := 99, instances := [] }]).labels,
        pyLower l.name ≠ pyLower "person")
      ∧ (get_object_instances
            (Response.mk [{ name := "Dog", confidence := 99, instances := [] }])
            "person" 80 = []
          ∧ (get_object_instances
              (Response.mk [{ name := "Dog", confidence := 99, instances := [] }])
              "person" 80).length = 0) :=
  ⟨by decide,
    get_object_instances_absent
      (Response.mk [{ name := "Dog", confidence := 99, instances := [] }])
      "person" 80 (by decide)⟩

/-- C3: `get_objects` maps, under dict lookup, each lowercased name `k` to
the rounded confidence of the last label with at least one instance whose
lowercased name is `k`, and `k` is present in the mapping exactly when such a
label exists; this is precisely: the mapping contains exactly the labels with
at least one instance, keyed by lowercased name, valued by the confidence
rounded to one decimal place, with last-wins overwrite on duplicates. -/
theorem get_objects_spec (r : Response) (k : String) :
    dictLookup (get_objects r) k
        = (lastMatch k r.labels).map (fun m => pyRound1 m.confidence)
      ∧ (dictLookup (get_objects r) k ≠ none ↔
          ∃ l ∈ r.labels, 0 < l.instances.length ∧ pyLower l.name = k) := by
  have h1 : dictLookup (get_objects r) k
      = (lastMatch k r.labels).map (fun m => pyRound1 m.confidence) := by
    rw [get_objects_eq_foldl, dictLookup_foldl]
    cases lastMatch k r.labels with
    | some m => rfl
    | none => rfl
  refine ⟨h1, ?_⟩
  rw [h1]
  constructor
  · intro hne
    by_contra hno
    have hnone : lastMatch k r.labels = none := by
      rw [lastMatch_eq_none_iff]
      intro l hl hc
      exact hno ⟨l, hl, hc.1, hc.2⟩
    rw [hnone] at hne
    exact hne rfl
  · rintro ⟨l, hl, hlen, hname⟩ heq
    cases hm : lastMatch k r.labels with
    | some m =>
      rw [hm] at heq
      exact Option.noConfusion heq
    | none =>
      exact (lastMatch_eq_none_iff k r.labels).mp hm l hl ⟨hlen, hname⟩

/-- The whitespace characters removed by Python `str.strip()`. -/
def isPySpace (c : Char) : Bool :=
  c == ' ' || c == '\t' || c == '\n' || c == '\r' || c == '\x0B' || c == '\x0C'

/-- Python `str.strip()`: drop leading and trailing whitespace. -/
def pyStrip (s : String) : String :=
  String.mk (((s.data.dropWhile isPySpace).reverse.dropWhile isPySpace).reverse)

/-- The `\w` class of the regex `(?u)[^-\w.]`, restricted to ASCII (letters,
digits and underscore; the component only ever sanitizes entity names). -/
def isWordChar (c : Char) : Bool := c.isAlphanum || c == '_'

/-- A character kept by `re.sub(r"(?u)[^-\w.]", "", ...)`: hyphen, word
character or period. -/
def isKeptChar (c : Char) : Bool := c == '-' || isWordChar c || c == '.'

/-- Python `str.replace(" ", "_")`: single-character replacement, realised as
a character map. -/
def replaceSpaces (s : String) : String :=
  String.mk (s.data.map (fun c => if c = ' ' then '_' else c))

/-- `re.sub(r"(?u)[^-\w.]", "", s)`: delete every character not in `[-\w.]`. -/
def subNonWord (s : String) : String := String.mk (s.data.filter isKeptChar)

/-- `get_valid_filename(name)` (image_processing.py lines 104-105):
`re.sub(r"(?u)[^-\w.]", "", str(name).strip().replace(" ", "_"))`. -/
def get_valid_filename (name : String) : String :=
  subNonWord (replaceSpaces (pyStrip name))

/-- C4: `get_valid_filename` strips, then replaces spaces with underscores,
then removes every character that is not a word character, hyphen or period —
in that order; every character of the output is an allowed character; and on
the input `" a b/c*.jpg "` it yields `"a_bc.jpg"`. -/
theorem get_valid_filename_spec :
    (∀ s : String, get_valid_filename s = subNonWord (replaceSpaces (pyStrip s)))
      ∧ (∀ (s : String), ∀ c ∈ (get_valid_filename s).data, isKeptChar c = true)
      ∧ get_valid_filename " a b/c*.jpg " = "a_bc.jpg" := by
  refine ⟨fun s => rfl, ?_, by decide⟩
  intro s c hc
  have hm : c ∈ (replaceSpaces (pyStrip s)).data.filter isKeptChar := hc
  exact (List.mem_filter.mp hm).2

/-- Instantiation of `get_valid_filename_spec`: the character kept at the
head of the sanitized example is an allowed character. -/
theorem get_valid_filename_spec_witness :
    get_valid_filename " a b/c*.jpg " = "a_bc.jpg" ∧ isKeptChar 'a' = true :=
  ⟨get_valid_filename_spec.2.2,
    get_valid_filename_spec.2.1 " a b/c*.jpg " 'a' (by decide)⟩

/-- The wall-clock value returned by `dt_util.now()`, reduced to the fields
consumed by `strftime("%Y-%m-%d_%H:%M:%S")`. -/
structure PyDatetime where
  year : ℕ
  month : ℕ
  day : ℕ
  hour : ℕ
  minute : ℕ
  second : ℕ
deriving DecidableEq, Repr

/-- Zero-padding to two digits (`%m`, `%d`, `%H`, `%M`, `%S`). -/
def pad2 (n : ℕ) : String := if n < 10 then "0" ++ toString n else toString n

/-- Zero-padding to four digits (`%Y`). -/
def pad4 (n : ℕ) : String :=
  if n < 10 then "000" ++ toString n
  else if n < 100 then "00" ++ toString n
  else if n < 1000 then "0" ++ toString n
  else toString n

/-- `dt_util.now().strftime(DATETIME_FORMAT)` with
`DATETIME_FORMAT = "%Y-%m-%d_%H:%M:%S"` (image_processing.py line 56). -/
def strftimeDatetimeFormat (t : PyDatetime) : String :=
  pad4 t.year ++ "-" ++ pad2 t.month ++ "-" ++ pad2 t.day ++ "_"
    ++ pad2 t.hour ++ ":" ++ pad2 t.minute ++ ":" ++ pad2 t.second

/-- The per-entity configuration stored by `ObjectDetection.__init__`
(image_processing.py lines 165-189); the boto3 client, region and camera
entity id play no role in the parsing logic and are omitted. -/
structure ObjectDetectionConfig where
  targets : List String
  confidence : ℚ
  save_file_folder : Option String
  save_timestamped_file : Bool
  name : String
deriving DecidableEq, Repr

/-- The mutable detection state of an `ObjectDetection` entity:
`_state`, `_last_detection`, `_objects`, `_targets_found`. -/
structure DetectorState where
  state : Option ℕ
  last_detection : Option String
  objects : List (String × ℚ)
  targets_found : List ℕ
deriving DecidableEq, Repr

/-- The detection fields as set by `ObjectDetection.__init__`
(image_processing.py lines 180 and 190-192). -/
def initDetectorState (targets : List String) : DetectorState :=
  { state := none
    last_detection := none
    objects := []
    targets_found := List.replicate targets.length 0 }

/-- The `_targets_found` list computed by the loop of `process_image`
(image_processing.py lines 202-205): for each configured target, the length
of `get_object_instances(response, target, confidence)`. -/
def targetsFoundOf (cfg : ObjectDetectionConfig) (response : Response) : List ℕ :=
  cfg.targets.map (fun t => (get_object_instances response t cfg.confidence).length)

/-- `ObjectDetection.process_image` (image_processing.py lines 194-210),
restricted to its state update: `_objects := get_objects(response)`,
`_targets_found` as above, `_state := sum(_targets_found)`, and
`_last_detection := now().strftime(DATETIME_FORMAT)` if `_state > 0`.
The network call producing `response` and the conditional `save_image` call
(which does not touch these fields) are outside this function. -/
def process_image (cfg : ObjectDetectionConfig) (st : DetectorState)
    (response : Response) (now : PyDatetime) : DetectorState :=
  { state := some (targetsFoundOf cfg response).sum
    last_detection :=
      if 0 < (targetsFoundOf cfg response).sum then some (strftimeDatetimeFormat now)
      else st.last_detection
    objects := get_objects response
    targets_found := targetsFoundOf cfg response }

/-- A value of the heterogeneous attribute dictionary returned by
`device_state_attributes`: a rounded confidence, the target list, or the
last-detection timestamp. -/
inductive AttrValue where
  | num (q : ℚ)
  | strList (l : List String)
  | str (s : String)
deriving DecidableEq, Repr

/-- Python dict insertion for the attribute dictionary (same semantics as
`dictInsert`). -/
def attrInsert : List (String × AttrValue) → String → AttrValue → List (String × AttrValue)
  | [], k, v => [(k, v)]
  | p :: d, k, v => if p.1 = k then (k, v) :: d else p :: attrInsert d k v

/-- Lookup in the attribute dictionary. -/
def attrLookup : List (String × AttrValue) → String → Option AttrValue
  | [], _ => none
  | p :: d, k => if p.1 = k then some p.2 else attrLookup d k

/-- `ObjectDetection.device_state_attributes` (image_processing.py lines
233-239): the `_objects` dictionary, then `attr["targets"] = self._targets`,
then `attr["last_target_detection"] = self._last_detection` when the latter
is set. -/
def device_state_attributes (cfg : ObjectDetectionConfig) (st : DetectorState) :
    List (String × AttrValue) :=
  let attr := attrInsert (st.objects.map (fun p => (p.1, AttrValue.num p.2)))
                "targets" (AttrValue.strList cfg.targets)
  match st.last_detection with
  | some t => attrInsert attr "last_target_detection" (AttrValue.str t)
  | none => attr

/-- The response of the end-to-end example: a single `"Person"` label of
confidence 98.2 with one instance of confidence 98.2 and bounding box
(0.1, 0.1, 0.2, 0.3). -/
def exampleResponse : Response :=
  { labels :=
      [ { name := "Person", confidence := mkRat 491 5
        , instances :=
            [ { confidence := mkRat 491 5
              , boundingBox :=
                  { left := mkRat 1 10, top := mkRat 1 10
                    width := mkRat 1 5, height := mkRat 3 10 } } ] } ] }

lemma mkRat_491_5_eq : (mkRat 491 5 : ℚ) = (98.2 : ℚ) := by
  rw [Rat.mkRat_eq_divInt, Rat.divInt_eq_div]
  norm_num

lemma pyRound1_982 : pyRound1 (mkRat 491 5) = (98.2 : ℚ) := by
  rw [pyRound1, mkRat_491_5_eq]
  have h2 : 10 * (98.2 : ℚ) + 1 / 2 = ((1965 : ℤ) : ℚ) / ((2 : ℕ) : ℚ) := by
    push_cast
    norm_num
  rw [h2, Rat.floor_intCast_div_natCast]
  norm_num

/-- The configuration of the end-to-end example: target list `["person"]`,
confidence threshold 80. -/
def exampleConfig : ObjectDetectionConfig :=
  { targets := ["person"], confidence := 80, save_file_folder := none
    save_timestamped_file := false, name := "rekognition_demo" }

/-- C5: on the single-`"Person"` response with target `["person"]` and
threshold 80, `process_image` sets the entity state to 1 and the entity
attributes map `"person"` to 98.2 and `"targets"` to `["person"]`. -/
theorem process_image_example :
    (process_image exampleConfig (initDetectorState exampleConfig.targets)
        exampleResponse ⟨2026, 10, 12, 0, 0, 0⟩).state = some 1
      ∧ attrLookup
          (device_state_attributes exampleConfig
            (process_image exampleConfig (initDetectorState exampleConfig.targets)
              exampleResponse ⟨2026, 10, 12, 0, 0, 0⟩))
          "person" = some (AttrValue.num (98.2 : ℚ))
      ∧ attrLookup
          (device_state_attributes exampleConfig
            (process_image exampleConfig (initDetectorState exampleConfig.targets)
              exampleResponse ⟨2026, 10, 12, 0, 0, 0⟩))
          "targets" = some (AttrValue.strList ["person"]) := by
  refine ⟨by decide, ?_, ?_⟩
  · have he : attrLookup
        (device_state_attributes exampleConfig
          (process_image exampleConfig (initDetectorState exampleConfig.targets)
            exampleResponse ⟨2026, 10, 12, 0, 0, 0⟩))
        "person" = some (AttrValue.num (pyRound1 (mkRat 491 5))) := rfl
    rw [he, pyRound1_982]
  · rfl

/-- C10: `__init__` sets `_last_detection` to `None`; once it is non-`None`
no later `process_image` call resets it to `None`; and a `process_image`
call whose total is 0 leaves it exactly as it was (in particular still
`None` before the first positive detection). -/
theorem last_detection_never_reset :
    (∀ targets : List String, (initDetectorState targets).last_detection = none)
      ∧ (∀ (cfg : ObjectDetectionConfig) (st : DetectorState) (response : Response)
            (now : PyDatetime), st.last_detection ≠ none →
          (process_image cfg st response now).last_detection ≠ none)
      ∧ (∀ (cfg : ObjectDetectionConfig) (st : DetectorState) (response : Response)
            (now : PyDatetime),
          (process_image cfg st response now).state = some 0 →
          (process_image cfg st response now).last_detection = st.last_detection) := by
  refine ⟨fun targets => rfl, ?_, ?_⟩
  · intro cfg st response now h
    show (if 0 < (targetsFoundOf cfg response).sum
          then some (strftimeDatetimeFormat now) else st.last_detection) ≠ none
    by_cases hp : 0 < (targetsFoundOf cfg response).sum
    · rw [if_pos hp]
      exact fun hh => Option.noConfusion hh
    · rw [if_neg hp]
      exact h
  · intro cfg st response now h
    have h0 : (targetsFoundOf cfg response).sum = 0 := Option.some.inj h
    show (if 0 < (targetsFoundOf cfg response).sum
          then some (strftimeDatetimeFormat now) else st.last_detection)
        = st.last_detection
    rw [if_neg (by rw [h0]; exact lt_irrefl 0)]

/-- Instantiation of `last_detection_never_reset`: a state holding a
timestamp keeps a non-`None` timestamp through a `process_image` call that
detects nothing, and a zero-total call leaves the field unchanged. -/
theorem last_detection_never_reset_witness :
    (process_image exampleConfig
        { state := some 1, last_detection := some "2026-10-12_00:00:00"
          objects := [], targets_found := [1] }
        (Response.mk []) ⟨2026, 10, 12, 1, 0, 0⟩).last_detection ≠ none
      ∧ (process_image exampleConfig
          { state := some 1, last_detection := some "2026-10-12_00:00:00"
            objects := [], targets_found := [1] }
          (Response.mk []) ⟨2026, 10, 12, 1, 0, 0⟩).last_detection
        = some "2026-10-12_00:00:00" :=
  ⟨last_detection_never_reset.2.1 exampleConfig
      { state := some 1, last_detection := some "2026-10-12_00:00:00"
        objects := [], targets_found := [1] }
      (Response.mk []) ⟨2026, 10, 12, 1, 0, 0⟩ (by decide),
    last_detection_never_reset.2.2 exampleConfig
      { state := some 1, last_detection := some "2026-10-12_00:00:00"
        objects := [], targets_found := [1] }
      (Response.mk []) ⟨2026, 10, 12, 1, 0, 0⟩ (by decide)⟩

/-- The retry loop of `setup_platform` (image_processing.py lines 121-131):
`retries = 0; while retries <= boto_retries: try construct; on success break;
on failure retries += 1`.  `attempt k` tells whether the `k`-th construction
attempt (0-based) succeeds; the loop is driven by the remaining iteration
budget `boto_retries + 1 - retries`, which the `while` condition bounds.
The result is the total number of attempts made and the `success` flag. -/
def setupLoop (attempt : ℕ → Bool) : ℕ → ℕ → ℕ × Bool
  | 0, made => (made, false)
  | budget + 1, made =>
    if attempt made then (made + 1, true) else setupLoop attempt budget (made + 1)

/-- The whole client-construction phase of `setup_platform`: run the retry
loop with `boto_retries` as configured (`while retries <= boto_retries`
admits `boto_retries + 1` iterations starting from `retries = 0`). -/
def setup_platform_client (boto_retries : ℕ) (attempt : ℕ → Bool) : ℕ × Bool :=
  setupLoop attempt (boto_retries + 1) 0

/-- The outcome of `setup_platform` after the loop (image_processing.py lines
133-137): `if not success: raise Exception(...)`, an unrecoverable setup
error; on success the attempt count stands in for the constructed client. -/
def setup_platform_outcome (boto_retries : ℕ) (attempt : ℕ → Bool) : Except String ℕ :=
  let r := setup_platform_client boto_retries attempt
  if r.2 then Except.ok r.1
  else Except.error "Failed to create boto3 client"

lemma setupLoop_all_fail (attempt : ℕ → Bool) (h : ∀ k, attempt k = false) :
    ∀ budget made, setupLoop attempt budget made = (made + budget, false) := by
  intro budget
  induction budget with
  | zero => intro made; simp [setupLoop]
  | succ n ih =>
    intro made
    rw [setupLoop, h made, if_neg (by simp), ih (made + 1)]
    congr 1
    omega

/-- C6: if every client-construction attempt fails, `setup_platform` makes
exactly `boto_retries + 1` attempts (the initial attempt plus `boto_retries`
retries), ends without success, and reports the fatal unrecoverable setup
error. -/
theorem setup_platform_exhausts_retries (boto_retries : ℕ) (attempt : ℕ → Bool)
    (h : ∀ k, attempt k = false) :
    (setup_platform_client boto_retries attempt).1 = boto_retries + 1
      ∧ (setup_platform_client boto_retries attempt).2 = false
      ∧ setup_platform_outcome boto_retries attempt
          = Except.error "Failed to create boto3 client" := by
  have hc : setup_platform_client boto_retries attempt = (boto_retries + 1, false) := by
    rw [setup_platform_client, setupLoop_all_fail attempt h]
    congr 1
    omega
  refine ⟨by rw [hc], by rw [hc], ?_⟩
  rw [setup_platform_outcome, hc]
  rfl

/-- Instantiation of `setup_platform_exhausts_retries` at `boto_retries = 2`
with an always-failing constructor: exactly 3 attempts occur before the
fatal error. -/
theorem setup_platform_exhausts_retries_witness :
    (setup_platform_client 2 (fun _ => false)).1 = 3
      ∧ (setup_platform_client 2 (fun _ => false)).2 = false
      ∧ setup_platform_outcome 2 (fun _ => false)
          = Except.error "Failed to create boto3 client" :=
  setup_platform_exhausts_retries 2 (fun _ => false) (fun _ => rfl)

/-- The pixel dimensions of a successfully decoded image
(`PIL.Image.open(...).convert("RGB")`). -/
structure ImageData where
  width : ℕ
  height : ℕ
deriving DecidableEq, Repr

/-- One rectangle drawn by `save_image`.  Modelled from the spec:
`homeassistant.util.pil.draw_box` is host-framework code, not part of this
repository; per the spec it converts the normalized `(y_min, x_min, y_max,
x_max)` tuple into pixel coordinates by multiplying x-components by the image
width and y-components by the image height, and labels the rectangle — the
label text `f"{object_name}: {confidence:.1f}%"` is kept here as its two
components, the (lowercased) class name and the label confidence. -/
structure DrawCall where
  xMin : ℚ
  yMin : ℚ
  xMax : ℚ
  yMax : ℚ
  className : String
  labelConfidence : ℚ
deriving DecidableEq, Repr

/-- The `draw_box(draw, (y, x, y_max, x_max), img.width, img.height, text)`
call of `save_image` (image_processing.py lines 274-276), under the
spec-modelled pixel conversion described at `DrawCall`. -/
def draw_box (yMin xMin yMax xMax : ℚ) (img : ImageData)
    (className : String) (labelConfidence : ℚ) : DrawCall :=
  { xMin := xMin * (img.width : ℚ)
    yMin := yMin * (img.height : ℚ)
    xMax := xMax * (img.width : ℚ)
    yMax := yMax * (img.height : ℚ)
    className := className
    labelConfidence := labelConfidence }

/-- The observable effects of one `save_image` call: the rectangles drawn on
the decoded image and the file paths written, in order. -/
structure SaveResult where
  draws : List DrawCall
  writes : List String
deriving DecidableEq, Repr

/-- The rectangles drawn by the label loop of `save_image`
(image_processing.py lines 262-276): a label is skipped when
`label["Confidence"] < confidence` or its lowercased name is not in
`targets`; otherwise one box per instance is drawn from the instance's
normalized bounding box `(Left, Top, Width, Height)` via
`(y, x, y_max, x_max) = (Top, Left, Top+Height, Left+Width)`. -/
def drawCallsOf (response : Response) (targets : List String) (confidence : ℚ)
    (img : ImageData) : List DrawCall :=
  response.labels.flatMap (fun label =>
    if label.confidence < confidence ∨ pyLower label.name ∉ targets then []
    else
      label.instances.map (fun inst =>
        draw_box inst.boundingBox.top inst.boundingBox.left
          (inst.boundingBox.top + inst.boundingBox.height)
          (inst.boundingBox.left + inst.boundingBox.width)
          img (pyLower label.name) label.confidence))

/-- `f"{self._last_detection}"`: a Python f-string renders `None` as
`"None"`. -/
def optStr : Option String → String
  | some s => s
  | none => "None"

/-- The file paths written by `save_image` (image_processing.py lines
278-286): always `directory / f"{get_valid_filename(self._name).lower()}_latest.jpg"`
(overwriting), and additionally
`directory / f"{self._name}_{self._last_detection}.jpg"` when
`self._save_timestamped_file` is set. -/
def writesOf (directory name : String) (save_timestamped_file : Bool)
    (last_detection : Option String) : List String :=
  if save_timestamped_file then
    [directory ++ "/" ++ pyLower (get_valid_filename name) ++ "_latest.jpg",
      directory ++ "/" ++ name ++ "_" ++ optStr last_detection ++ ".jpg"]
  else
    [directory ++ "/" ++ pyLower (get_valid_filename name) ++ "_latest.jpg"]

/-- `ObjectDetection.save_image` (image_processing.py lines 251-286).
`decode` stands for `Image.open(io.BytesIO(bytearray(image))).convert("RGB")`,
returning `none` when PIL raises `UnidentifiedImageError`; in that case the
method logs a warning and returns, drawing and writing nothing.  The method
reads but never assigns the detection state (`_state`, `_objects`,
`_last_detection`), so the state `st` is passed through unchanged.  The
`camera_entity` parameter of the Python method is unused there; the file
names use `self._name` (`name` here) and `self._last_detection`
(`last_detection` here). -/
def save_image (decode : List ℕ → Option ImageData) (image : List ℕ)
    (response : Response) (targets : List String) (confidence : ℚ)
    (directory : String) (name : String) (save_timestamped_file : Bool)
    (last_detection : Option String) (st : DetectorState) :
    DetectorState × SaveResult :=
  match decode image with
  | none => (st, { draws := [], writes := [] })
  | some img =>
    (st, { draws := drawCallsOf response targets confidence img
           writes := writesOf directory name save_timestamped_file last_detection })

/-- C7: on corrupt image bytes (decoding fails), `save_image` returns
normally (it is a total function of the decode result), draws nothing,
writes no file, and leaves the detection state — count, detected-objects
mapping, last-detection timestamp — exactly unchanged. -/
theorem save_image_corrupt (decode : List ℕ → Option ImageData) (image : List ℕ)
    (response : Response) (targets : List String) (confidence : ℚ)
    (directory name : String) (save_timestamped_file : Bool)
    (last_detection : Option String) (st : DetectorState)
    (h : decode image = none) :
    save_image decode image response targets confidence directory name
        save_timestamped_file last_detection st
      = (st, { draws := [], writes := [] }) := by
  unfold save_image
  rw [h]

/-- Instantiation of `save_image_corrupt`: an always-failing decoder yields
no draws, no writes, and the untouched initial state. -/
theorem save_image_corrupt_witness :
    save_image (fun _ => none) [0] (Response.mk []) [] 80 "/config" "cam"
        false none (initDetectorState ["person"])
      = (initDetectorState ["person"], { draws := [], writes := [] }) :=
  save_image_corrupt (fun _ => none) [0] (Response.mk []) [] 80 "/config" "cam"
    false none (initDetectorState ["person"]) rfl

/-- C8: when decoding succeeds, a rectangle is drawn exactly for each
instance of each label whose confidence meets the threshold (`≥`, since the
code skips on `<`) and whose lowercased name is in the target list; the
rectangle is the normalized `(left, top, left+width, top+height)` corner pair
scaled by the image width and height, labeled with the class name and the
label's confidence. -/
theorem save_image_draws_iff (decode : List ℕ → Option ImageData) (image : List ℕ)
    (response : Response) (targets : List String) (confidence : ℚ)
    (directory name : String) (save_timestamped_file : Bool)
    (last_detection : Option String) (st : DetectorState) (img : ImageData)
    (h : decode image = some img) (c : DrawCall) :
    c ∈ (save_image decode image response targets confidence directory name
          save_timestamped_file last_detection st).2.draws
      ↔ ∃ label ∈ response.labels, ∃ inst ∈ label.instances,
          confidence ≤ label.confidence ∧ pyLower label.name ∈ targets
            ∧ c = draw_box inst.boundingBox.top inst.boundingBox.left
                    (inst.boundingBox.top + inst.boundingBox.height)
                    (inst.boundingBox.left + inst.boundingBox.width)
                    img (pyLower label.name) label.confidence := by
  have hs : (save_image decode image response targets confidence directory name
        save_timestamped_file last_detection st).2.draws
      = drawCallsOf response targets confidence img := by
    unfold save_image
    rw [h]
  rw [hs]
  unfold drawCallsOf
  rw [List.mem_flatMap]
  constructor
  · rintro ⟨label, hl, hc⟩
    by_cases hskip : label.confidence < confidence ∨ pyLower label.name ∉ targets
    · rw [if_pos hskip] at hc
      exact absurd hc (List.not_mem_nil c)
    · rw [if_neg hskip] at hc
      push_neg at hskip
      rcases List.mem_map.mp hc with ⟨inst, hi, hceq⟩
      exact ⟨label, hl, inst, hi, hskip.1, hskip.2, hceq.symm⟩
  · rintro ⟨label, hl, inst, hi, hconf, htarg, hceq⟩
    refine ⟨label, hl, ?_⟩
    rw [if_neg (by push_neg; exact ⟨hconf, htarg⟩)]
    rw [hceq]
    exact List.mem_map_of_mem _ hi

/-- Instantiation of `save_image_draws_iff` on the single-`"Person"` example
response over a 100×200 image: the box scaled from (0.1, 0.1, 0.3, 0.4) is
among the drawn rectangles. -/
theorem save_image_draws_iff_witness :
    draw_box (mkRat 1 10) (mkRat 1 10) (mkRat 1 10 + mkRat 3 10)
        (mkRat 1 10 + mkRat 1 5) (ImageData.mk 100 200) "person" (mkRat 491 5)
      ∈ (save_image (fun _ => some (ImageData.mk 100 200)) [0] exampleResponse
          ["person"] 80 "/config" "cam" false none
          (initDetectorState ["person"])).2.draws :=
  (save_image_draws_iff (fun _ => some (ImageData.mk 100 200)) [0] exampleResponse
      ["person"] 80 "/config" "cam" false none (initDetectorState ["person"])
      (ImageData.mk 100 200) rfl _).mpr
    ⟨{ name := "Person", confidence := mkRat 491 5
       , instances :=
          [ { confidence := mkRat 491 5
              , boundingBox :=
                  { left := mkRat 1 10, top := mkRat 1 10
                    width := mkRat 1 5, height := mkRat 3 10 } } ] },
      by decide,
      { confidence := mkRat 491 5
        , boundingBox :=
            { left := mkRat 1 10, top := mkRat 1 10
              width := mkRat 1 5, height := mkRat 3 10 } },
      by decide, by decide, by decide, rfl⟩

/-- C9 counterexample: with entity name `"Cam"`, the latest file is written
at `/config/cam_latest.jpg` — the sanitized name additionally lowercased —
while the claim's path `<sanitized-name>_latest.jpg` would be
`/config/Cam_latest.jpg`, a different path. -/
theorem save_image_latest_path_counterexample :
    (save_image (fun _ => some (ImageData.mk 10 10)) [0] (Response.mk []) [] 80
        "/config" "Cam" false none (initDetectorState [])).2.writes
      = ["/config/cam_latest.jpg"]
      ∧ get_valid_filename "Cam" = "Cam"
      ∧ "/config/cam_latest.jpg" ≠ "/config/" ++ get_valid_filename "Cam" ++ "_latest.jpg" := by
  exact ⟨rfl, rfl, by decide⟩

/-- C9 (amended): every successful save writes the annotated image to
`<directory>/<sanitized-name-lowercased>_latest.jpg`, where the name part is
the `get_valid_filename` output of the entity name converted to lowercase,
and, when the timestamped-file option is configured, additionally to
`<directory>/<name>_<timestamp>.jpg` using the last-detection timestamp in
the `%Y-%m-%d_%H:%M:%S` format. -/
theorem save_image_writes_spec (decode : List ℕ → Option ImageData) (image : List ℕ)
    (response : Response) (targets : List String) (confidence : ℚ)
    (directory name : String) (save_timestamped_file : Bool) (t : PyDatetime)
    (st : DetectorState) (img : ImageData) (h : decode image = some img) :
    (save_image decode image response targets confidence directory name
        save_timestamped_file (some (strftimeDatetimeFormat t)) st).2.writes
      = if save_timestamped_file then
          [directory ++ "/" ++ pyLower (get_valid_filename name) ++ "_latest.jpg",
            directory ++ "/" ++ name ++ "_" ++ strftimeDatetimeFormat t ++ ".jpg"]
        else
          [directory ++ "/" ++ pyLower (get_valid_filename name) ++ "_latest.jpg"] := by
  unfold save_image
  rw [h]
  show writesOf directory name save_timestamped_file (some (strftimeDatetimeFormat t)) = _
  unfold writesOf optStr
  rfl

/-- Instantiation of `save_image_writes_spec` with the timestamped-file
option on: both the lowercased-latest path and the raw-name timestamped path
are written. -/
theorem save_image_writes_spec_witness :
    (save_image (fun _ => some (ImageData.mk 10 10)) [0] (Response.mk []) [] 80
        "/config" "Cam" true (some (strftimeDatetimeFormat ⟨2026, 10, 12, 1, 2, 3⟩))
        (initDetectorState [])).2.writes
      = if true then
          ["/config" ++ "/" ++ pyLower (get_valid_filename "Cam") ++ "_latest.jpg",
            "/config" ++ "/" ++ "Cam" ++ "_"
              ++ strftimeDatetimeFormat ⟨2026, 10, 12, 1, 2, 3⟩ ++ ".jpg"]
        else
          ["/config" ++ "/" ++ pyLower (get_valid_filename "Cam") ++ "_latest.jpg"] :=
  save_image_writes_spec (fun _ => some (ImageData.mk 10 10)) [0] (Response.mk [])
    [] 80 "/config" "Cam" true ⟨2026, 10, 12, 1, 2, 3⟩ (initDetectorState [])
    (ImageData.mk 10 10) rfl

end Rekognition
